import Mathlib

/-!
Shallow embedding of the text-editor model in `src/main.py`: the
`TextBuffer`, `Cursor`, `Selection`, `Command`/`InsertTextCommand`,
`HistoryManager` and `Document` classes, plus the JSON/XML load functions.

Python strings are modelled as `List Char`, the buffer's line list as
`List (List Char)`.  Python's dynamic typing matters in one place —
`InsertTextCommand.undo` passes the stored *text* (a string) where
`delete_text` expects an integer end column — so slice arguments of
`delete_text` are modelled as a dynamic value `PyVal`, and Python slice
semantics (negative indices clamp from the end, over-long indices clamp to
the length) are reproduced exactly.  Exceptions are modelled with `Except`.
Timestamps (`datetime.now()`) and command description strings are
audit-only in the source and are not modelled.
-/

namespace TextEditor

/-- Python strings as lists of characters. -/
abbrev PyStr := List Char

/-- The `TextBuffer.lines` list. -/
abbrev Lines := List PyStr

/-- The exceptions the modelled code can raise: `InvalidPositionError`,
Python's built-in `TypeError` (string used as a slice index), Python's
built-in `IndexError` (list index out of range), and the base
`TextEditorError` raised by `execute_command` for an invalid command. -/
inductive PyErr where
  | invalidPosition
  | typeError
  | indexError
  | textEditorError
deriving DecidableEq, Repr

/-- A dynamically typed Python value, as far as the claims need: an int or
a string.  `delete_text` receives its slice bounds as such values because
`InsertTextCommand.undo` passes a string where an int is expected. -/
inductive PyVal where
  | int : Int → PyVal
  | str : PyStr → PyVal
deriving DecidableEq, Repr

/-- Normalise a Python slice bound `c` against a sequence of length `n`:
a negative bound counts from the end (clamped at 0), a non-negative bound
is clamped at `n`.  This is `max 0 (n + c)` for `c < 0` and `min c n`
otherwise, exactly Python's slice-index rule. -/
def pyIndexNorm (n : Nat) (c : Int) : Nat :=
  if c < 0 then n - min n (-c).toNat else min c.toNat n

/-- Python `s[:c]`. -/
def pyTake (s : PyStr) (c : Int) : PyStr :=
  s.take (pyIndexNorm s.length c)

/-- Python `s[c:]`. -/
def pyDrop (s : PyStr) (c : Int) : PyStr :=
  s.drop (pyIndexNorm s.length c)

/-- Python `s[:v]` where `v` is a dynamic value: a string bound raises
`TypeError` (slice indices must be integers). -/
def pySliceTo (s : PyStr) : PyVal → Except PyErr PyStr
  | .int c => .ok (pyTake s c)
  | .str _ => .error .typeError

/-- Python `s[v:]` where `v` is a dynamic value. -/
def pySliceFrom (s : PyStr) : PyVal → Except PyErr PyStr
  | .int c => .ok (pyDrop s c)
  | .str _ => .error .typeError

/-- Python list indexing `xs[i]` for a list of length `n`: a negative `i`
counts from the end; out of range raises `IndexError`.  Returns the
resolved non-negative index. -/
def listIndex (n : Nat) (i : Int) : Except PyErr Nat :=
  if 0 ≤ i then
    if i < (n : Int) then .ok i.toNat else .error .indexError
  else
    if -i ≤ (n : Int) then .ok (n - (-i).toNat) else .error .indexError

namespace TextBuffer

/-- `TextBuffer.__init__`: `self.lines = [""]`. -/
def init : Lines := [[]]

/-- `TextBuffer.insert_text(line, column, text)`:
raises `InvalidPositionError` if `line >= len(self.lines)`, otherwise
splices `text` into `self.lines[line]` at slice position `column`
(`current_line[:column] + text + current_line[column:]`).  A negative
`line` that Python can resolve addresses a line from the end; one it
cannot resolve raises `IndexError`. -/
def insert_text (lines : Lines) (line column : Int) (text : PyStr) :
    Except PyErr Lines :=
  if (lines.length : Int) ≤ line then .error .invalidPosition
  else
    match listIndex lines.length line with
    | .error e => .error e
    | .ok i =>
      let current_line := lines.getD i []
      let new_line := pyTake current_line column ++ text ++ pyDrop current_line column
      .ok (lines.set i new_line)

/-- `TextBuffer.delete_text(line, start_col, end_col)`:
raises `InvalidPositionError` if `line >= len(self.lines)`, otherwise
replaces `self.lines[line]` with
`current_line[:start_col] + current_line[end_col:]`.  The slice bounds are
dynamic values: the source's only internal caller (`InsertTextCommand.undo`)
passes a string as `end_col`. -/
def delete_text (lines : Lines) (line : Int) (start_col end_col : PyVal) :
    Except PyErr Lines :=
  if (lines.length : Int) ≤ line then .error .invalidPosition
  else
    match listIndex lines.length line with
    | .error e => .error e
    | .ok i =>
      let current_line := lines.getD i []
      match pySliceTo current_line start_col with
      | .error e => .error e
      | .ok left =>
        match pySliceFrom current_line end_col with
        | .error e => .error e
        | .ok right => .ok (lines.set i (left ++ right))

/-- `TextBuffer.get_text`: `"\n".join(self.lines)`. -/
def get_text (lines : Lines) : PyStr :=
  List.intercalate ['\n'] lines

/-- `TextBuffer.set_text(text)`:
`self.lines = text.split("\n") if text else [""]` (an empty string is
falsy in Python, so it resets to a single empty line). -/
def set_text (text : PyStr) : Lines :=
  if text = [] then [[]] else text.splitOn '\n'

end TextBuffer

/-- `Cursor`: a (line, column) pair.  `__init__` stores its arguments with
no validation. -/
structure Cursor where
  line : Int
  column : Int
deriving DecidableEq, Repr

namespace Cursor

/-- `Cursor.get_line`. -/
def get_line (c : Cursor) : Int := c.line

/-- `Cursor.get_column`. -/
def get_column (c : Cursor) : Int := c.column

/-- `Cursor.set_position(line, column)`: raises `InvalidPositionError`
when either component is negative, otherwise stores both. -/
def set_position (_c : Cursor) (line column : Int) : Except PyErr Cursor :=
  if line < 0 ∨ column < 0 then .error .invalidPosition
  else .ok ⟨line, column⟩

/-- `Cursor.from_dict(data)`: `cls(line=data.get("line", 0),
column=data.get("column", 0))` — the dictionary's two optional entries,
defaulted to 0, passed to the unvalidated constructor. -/
def from_dict (line column : Option Int) : Cursor :=
  ⟨line.getD 0, column.getD 0⟩

end Cursor

/-- `Selection`: two endpoint positions and an activation flag. -/
structure Selection where
  start_line : Int
  start_column : Int
  end_line : Int
  end_column : Int
  is_active : Bool
deriving DecidableEq, Repr

namespace Selection

/-- `Selection.__init__`. -/
def init : Selection := ⟨0, 0, 0, 0, false⟩

/-- `Selection.set_start`. -/
def set_start (s : Selection) (line column : Int) : Selection :=
  { s with start_line := line, start_column := column, is_active := true }

/-- `Selection.set_end`. -/
def set_end (s : Selection) (line column : Int) : Selection :=
  { s with end_line := line, end_column := column, is_active := true }

/-- `Selection.clear`. -/
def clear (s : Selection) : Selection := { s with is_active := false }

/-- The constant `"текст"` returned by `Selection.get_selected_text`. -/
def placeholder : PyStr := ['т', 'е', 'к', 'с', 'т']

/-- `Selection.get_selected_text(lines)`: returns `""` when inactive and
the literal placeholder string `"текст"` otherwise; the `lines` argument
and the stored coordinates are never consulted. -/
def get_selected_text (s : Selection) (_lines : Lines) : PyStr :=
  if s.is_active = false then [] else placeholder

end Selection

/-- The command hierarchy: the base `Command` (whose `execute`/`undo` are
`pass`) and `InsertTextCommand(document, line, column, text)`.  The
document the Python command holds a reference to is threaded explicitly as
the buffer state. -/
inductive Command where
  | base : Command
  | insertTextCommand (line column : Int) (text : PyStr) : Command
deriving DecidableEq, Repr

namespace Command

/-- `Command.execute` / `InsertTextCommand.execute`: the latter calls
`self.document.text_buffer.insert_text(self.line, self.column, self.text)`. -/
def execute : Command → Lines → Except PyErr Lines
  | .base, buf => .ok buf
  | .insertTextCommand l c t, buf => TextBuffer.insert_text buf l c t

/-- `Command.undo` / `InsertTextCommand.undo`: the latter calls
`self.document.text_buffer.delete_text(self.line, self.column, self.text)` —
note the third argument is the stored *text*, passed where `delete_text`
expects the integer end column. -/
def undo : Command → Lines → Except PyErr Lines
  | .base, buf => .ok buf
  | .insertTextCommand l c t, buf =>
      TextBuffer.delete_text buf l (.int c) (.str t)

end Command

/-- `HistoryManager`: the two command stacks (head of the list = top of
the stack, i.e. Python's `append`/`pop` end) and the configured
`max_history_size`. -/
structure HistoryManager where
  undo_stack : List Command
  redo_stack : List Command
  max_history_size : Nat
deriving DecidableEq, Repr

namespace HistoryManager

/-- `HistoryManager.__init__` with the default `max_history_size=100`. -/
def init : HistoryManager := ⟨[], [], 100⟩

/-- `HistoryManager.is_valid_command`: `hasattr(command, "execute") and
hasattr(command, 'undo')` — true for every instance of the `Command`
hierarchy, since both methods exist on the base class. -/
def is_valid_command (_c : Command) : Bool := true

/-- `HistoryManager.execute_command(command)`: raises `TextEditorError`
if the command is invalid (never, see `is_valid_command`); calls
`command.execute()`; appends the command to the undo stack; clears the
redo stack.  `max_history_size` is not consulted. -/
def execute_command (h : HistoryManager) (buf : Lines) (c : Command) :
    Except PyErr (HistoryManager × Lines) :=
  if is_valid_command c = false then .error .textEditorError
  else
    match c.execute buf with
    | .error e => .error e
    | .ok buf' =>
        .ok (⟨c :: h.undo_stack, [], h.max_history_size⟩, buf')

/-- `HistoryManager.undo`: returns false on an empty undo stack; else pops
the top command, calls its `undo()`, appends it to the redo stack. -/
def undo (h : HistoryManager) (buf : Lines) :
    Except PyErr (HistoryManager × Lines × Bool) :=
  match h.undo_stack with
  | [] => .ok (h, buf, false)
  | c :: rest =>
    match c.undo buf with
    | .error e => .error e
    | .ok buf' =>
        .ok (⟨rest, c :: h.redo_stack, h.max_history_size⟩, buf', true)

/-- `HistoryManager.redo`: returns false on an empty redo stack; else pops
the top command, calls its `execute()`, and appends it back onto the
*redo* stack (`self.redo_stack.append(command)` in the source), leaving
both stacks as they were. -/
def redo (h : HistoryManager) (buf : Lines) :
    Except PyErr (HistoryManager × Lines × Bool) :=
  match h.redo_stack with
  | [] => .ok (h, buf, false)
  | c :: rest =>
    match c.execute buf with
    | .error e => .error e
    | .ok buf' =>
        .ok (⟨h.undo_stack, c :: rest, h.max_history_size⟩, buf', true)

/-- `HistoryManager.can_undo`. -/
def can_undo (h : HistoryManager) : Bool := !h.undo_stack.isEmpty

/-- `HistoryManager.can_redo`. -/
def can_redo (h : HistoryManager) : Bool := !h.redo_stack.isEmpty

/-- A sequence of consecutive `execute_command` calls, stopping at the
first raised exception (helper for stating claims over call sequences). -/
def executeSequence (h : HistoryManager) (buf : Lines) :
    List Command → Except PyErr (HistoryManager × Lines)
  | [] => .ok (h, buf)
  | c :: cs =>
    match h.execute_command buf c with
    | .error e => .error e
    | .ok (h', buf') => executeSequence h' buf' cs

end HistoryManager

/-- The default document title `"Новый документ"`. -/
def defaultTitle : PyStr :=
  ['Н', 'о', 'в', 'ы', 'й', ' ', 'д', 'о', 'к', 'у', 'м', 'е', 'н', 'т']

/-- `Document`: the aggregate of title, buffer and cursor.  Selection and
history always start fresh on construction and are never persisted;
timestamps are not modelled. -/
structure Document where
  title : PyStr
  text_buffer : Lines
  cursor : Cursor
deriving DecidableEq, Repr

namespace Document

/-- `Document.__init__(title)`. -/
def init (title : PyStr) : Document :=
  ⟨title, TextBuffer.init, ⟨0, 0⟩⟩

/-- `Document.set_text(text)`: replaces the buffer content and resets the
cursor with `set_position(0, 0)` (which never raises). -/
def set_text (d : Document) (text : PyStr) : Document :=
  { d with text_buffer := TextBuffer.set_text text, cursor := ⟨0, 0⟩ }

/-- `Document.get_text`. -/
def get_text (d : Document) : PyStr :=
  TextBuffer.get_text d.text_buffer

end Document

/-- A generic exception raised by a library call (`open`, `json.load`,
`ET.parse`, `int(...)`) during load: anything that is not
`DocumentNotFoundError`.  Carries its message. -/
structure LibError where
  msg : PyStr
deriving DecidableEq, Repr

/-- The errors load functions surface to their caller. -/
inductive LoadErr where
  | documentNotFound
  | fileOperation
deriving DecidableEq, Repr

/-- Errors arising inside a load function's `try` block before the
`except` clauses route them. -/
inductive BodyErr where
  | documentNotFound
  | lib : LibError → BodyErr
deriving DecidableEq, Repr

/-- The `except DocumentNotFoundError: raise` / `except Exception:
raise FileOperationError(...)` routing shared by `load_from_json` and
`load_from_xml`: a `DocumentNotFoundError` passes through unwrapped, every
other exception is re-raised as `FileOperationError`. -/
def routeLoadErrors (body : Except BodyErr Document) : Except LoadErr Document :=
  match body with
  | .ok d => .ok d
  | .error .documentNotFound => .error .documentNotFound
  | .error (.lib _) => .error .fileOperation

/-- The parsed JSON dictionary, as far as `load_from_json` reads it:
`data.get("title", ...)`, `data.get("content", "")`,
`data.get("cursor", {}).get("line"/"column", 0)`; each entry optional. -/
structure JsonDict where
  title : Option PyStr
  content : Option PyStr
  cursor_line : Option Int
  cursor_column : Option Int
deriving DecidableEq, Repr

/-- Body of `load_from_json`'s `try` block: `os.path.exists` check raising
`DocumentNotFoundError`, file read + `json.load` (the oracle `json_load`,
which may raise a generic exception), then document construction — which
cannot raise, since `set_text` and `Cursor.from_dict` are total.  The file
system is passed explicitly as a map from path to content. -/
def load_from_json_body (fs : PyStr → Option PyStr)
    (json_load : PyStr → Except LibError JsonDict) (path : PyStr) :
    Except BodyErr Document :=
  match fs path with
  | none => .error .documentNotFound
  | some content =>
    match json_load content with
    | .error e => .error (.lib e)
    | .ok data =>
        let document := Document.init (data.title.getD defaultTitle)
        let document := { document with
          text_buffer := TextBuffer.set_text (data.content.getD []) }
        let document := { document with
          cursor := Cursor.from_dict data.cursor_line data.cursor_column }
        .ok document

/-- `load_from_json(file_path)`. -/
def load_from_json (fs : PyStr → Option PyStr)
    (json_load : PyStr → Except LibError JsonDict) (path : PyStr) :
    Except LoadErr Document :=
  routeLoadErrors (load_from_json_body fs json_load path)

/-- The parsed XML tree, as far as `Document.from_xml` reads it: optional
`title` text, optional non-empty `content` text, optional `cursor` element
whose `line`/`column` attributes have already been through `int(...)`. -/
structure XmlDoc where
  title : Option PyStr
  content : Option PyStr
  cursor : Option (Int × Int)
deriving DecidableEq, Repr

/-- `Document.from_xml(root)`: builds the document from the tree; the
cursor is restored through `set_position`, which raises
`InvalidPositionError` on negative components. -/
def Document.from_xml (x : XmlDoc) : Except PyErr Document :=
  let document := Document.init (x.title.getD defaultTitle)
  let document :=
    match x.content with
    | none => document
    | some c => if c = [] then document else document.set_text c
  match x.cursor with
  | none => .ok document
  | some (line, column) =>
    match document.cursor.set_position line column with
    | .error e => .error e
    | .ok cur => .ok { document with cursor := cur }

/-- Body of `load_from_xml`'s `try` block: existence check, `ET.parse`
(the oracle `xml_parse`), then `Document.from_xml`, whose
`InvalidPositionError` is a generic exception to the router. -/
def load_from_xml_body (fs : PyStr → Option PyStr)
    (xml_parse : PyStr → Except LibError XmlDoc) (path : PyStr) :
    Except BodyErr Document :=
  match fs path with
  | none => .error .documentNotFound
  | some content =>
    match xml_parse content with
    | .error e => .error (.lib e)
    | .ok x =>
      match Document.from_xml x with
      | .error _ => .error (.lib ⟨[]⟩)
      | .ok d => .ok d

/-- `load_from_xml(file_path)`. -/
def load_from_xml (fs : PyStr → Option PyStr)
    (xml_parse : PyStr → Except LibError XmlDoc) (path : PyStr) :
    Except LoadErr Document :=
  routeLoadErrors (load_from_xml_body fs xml_parse path)

end TextEditor

namespace TextEditor

/-! Helper lemmas shared by the claim theorems. -/

/-- Setting index `i` back to the value it already holds is the identity. -/
theorem set_getD_self {α : Type} (l : List α) (i : Nat) (d : α)
    (h : i < l.length) : l.set i (l.getD i d) = l := by
  rw [List.getD_eq_getElem l d h]
  induction l generalizing i with
  | nil => simp at h
  | cons a t ih =>
    cases i with
    | zero => simp
    | succ j => simp only [List.set, List.getElem_cons_succ]
                rw [ih j (by simpa using h)]

/-- Reading back the index just set. -/
theorem getD_set_self {α : Type} (l : List α) (i : Nat) (a d : α)
    (h : i < l.length) : (l.set i a).getD i d = a := by
  rw [List.getD_eq_getElem (l.set i a) d (by simpa using h)]
  exact List.getElem_set_self (by simpa using h)

/-- Evaluation of `insert_text` at a non-negative in-range line. -/
theorem insert_text_eval (lines : Lines) (l c : Int) (text : PyStr)
    (hl0 : 0 ≤ l) (hl : l < (lines.length : Int)) :
    TextBuffer.insert_text lines l c text =
      .ok (lines.set l.toNat
        (pyTake (lines.getD l.toNat []) c ++ text ++
          pyDrop (lines.getD l.toNat []) c)) := by
  unfold TextBuffer.insert_text listIndex
  rw [if_neg (by omega), if_pos hl0, if_pos hl]

/-- Evaluation of `delete_text` at a non-negative in-range line with
integer slice bounds. -/
theorem delete_text_eval (lines : Lines) (l s e : Int)
    (hl0 : 0 ≤ l) (hl : l < (lines.length : Int)) :
    TextBuffer.delete_text lines l (.int s) (.int e) =
      .ok (lines.set l.toNat
        (pyTake (lines.getD l.toNat []) s ++ pyDrop (lines.getD l.toNat []) e)) := by
  unfold TextBuffer.delete_text listIndex pySliceTo pySliceFrom
  rw [if_neg (by omega), if_pos hl0, if_pos hl]

/-- A successful `execute_command` executes the command, pushes it on the
undo stack and clears the redo stack. -/
theorem execute_command_ok {h : HistoryManager} {buf : Lines} {c : Command}
    {h' : HistoryManager} {buf' : Lines}
    (hk : h.execute_command buf c = .ok (h', buf')) :
    h' = ⟨c :: h.undo_stack, [], h.max_history_size⟩ ∧ c.execute buf = .ok buf' := by
  unfold HistoryManager.execute_command HistoryManager.is_valid_command at hk
  simp only [if_neg (by simp : ¬ (true = false))] at hk
  cases he : c.execute buf <;> rw [he] at hk <;> simp_all

end TextEditor

namespace TextEditor

/-- Claim C1: refuted by the code — `InsertTextCommand.undo` passes the
stored text string as `delete_text`'s `end_col`, so on the document
`[""]` with `InsertTextCommand(line=0, column=0, text="hi")`, `execute`
inserts `"hi"` but `undo` raises `TypeError` (string slice index) and the
buffer keeps the inserted text instead of being restored. -/
theorem C1_undo_raises_type_error :
    (Command.insertTextCommand 0 0 ['h', 'i']).execute TextBuffer.init
      = .ok [['h', 'i']]
    ∧ (Command.insertTextCommand 0 0 ['h', 'i']).undo [['h', 'i']]
      = .error .typeError :=
  ⟨rfl, rfl⟩

/-- Claim C2: refuted by the code — on an empty redo stack `redo` returns
false and changes nothing, but on the redo stack `[base]` it returns true
while appending the popped command back onto the *redo* stack: the undo
stack stays empty and the command stays on the redo stack, instead of
moving to the undo stack as the claim requires. -/
theorem C2_redo_pushes_back_onto_redo_stack :
    HistoryManager.redo ⟨[], [], 100⟩ [[]] = .ok (⟨[], [], 100⟩, [[]], false)
    ∧ HistoryManager.redo ⟨[], [Command.base], 100⟩ [[]]
        = .ok (⟨[], [Command.base], 100⟩, [[]], true) :=
  ⟨rfl, rfl⟩

/-- Claim C3, counterexample: with `max_history_size = 1`, two
`execute_command` calls leave an undo stack of length 2 — the bound is
exceeded and nothing is evicted. -/
theorem C3_counterexample :
    HistoryManager.executeSequence ⟨[], [], 1⟩ [[]] [Command.base, Command.base]
      = .ok (⟨[Command.base, Command.base], [], 1⟩, [[]])
    ∧ ¬ (([Command.base, Command.base] : List Command).length ≤ 1) :=
  ⟨rfl, by decide⟩

/-- Claim C3, amended: `execute_command` never consults
`max_history_size` and never evicts — every successful sequence of
`execute_command` calls grows the undo stack by exactly the number of
commands executed, so the stack length is unbounded. -/
theorem C3_no_eviction (h : HistoryManager) (buf : Lines)
    (cmds : List Command) (h' : HistoryManager) (buf' : Lines)
    (hok : HistoryManager.executeSequence h buf cmds = .ok (h', buf')) :
    h'.undo_stack.length = h.undo_stack.length + cmds.length := by
  induction cmds generalizing h buf with
  | nil =>
    unfold HistoryManager.executeSequence at hok
    simp only [Except.ok.injEq, Prod.mk.injEq] at hok
    rw [← hok.1]
    simp
  | cons c cs ih =>
    unfold HistoryManager.executeSequence at hok
    cases hc : h.execute_command buf c with
    | error e => rw [hc] at hok; exact absurd hok (by simp)
    | ok p =>
      obtain ⟨h1, buf1⟩ := p
      rw [hc] at hok
      have hstep := (execute_command_ok hc).1
      have htail := ih h1 buf1 hok
      rw [htail, hstep]
      simp only [List.length_cons, List.length]
      omega

/-- Witness for `C3_no_eviction` at a concrete input: one executed command
on a fresh manager grows the undo stack from length 0 to length 1. -/
theorem C3_no_eviction_witness :
    (⟨[Command.base], [], 100⟩ : HistoryManager).undo_stack.length
      = HistoryManager.init.undo_stack.length + 1 :=
  C3_no_eviction HistoryManager.init [[]] [Command.base]
    ⟨[Command.base], [], 100⟩ [[]] rfl

end TextEditor

namespace TextEditor

/-- Claim C4, counterexample: on the two-line buffer `["a", "b"]` the
negative line index `-1` does not raise `InvalidPosition` — it addresses
the last line from the end, so `insert_text(-1, 0, "X")` succeeds and so
does `delete_text(-1, 0, 1)`. -/
theorem C4_counterexample :
    TextBuffer.insert_text [['a'], ['b']] (-1) 0 ['X'] = .ok [['a'], ['X', 'b']]
    ∧ TextBuffer.delete_text [['a'], ['b']] (-1) (.int 0) (.int 1)
        = .ok [['a'], []] :=
  ⟨rfl, rfl⟩

/-- Claim C4, amended: `insert_text` and `delete_text` raise
`InvalidPosition` exactly when `line ≥ lineCount`; a negative `line` with
`-lineCount ≤ line < 0` addresses the line `lineCount + line` from the end
without raising, and `line < -lineCount` raises Python's `IndexError`, a
different error, rather than `InvalidPosition`. -/
theorem C4_line_range_errors (lines : Lines) (line column : Int)
    (text : PyStr) (s e : Int) :
    (TextBuffer.insert_text lines line column text = .error .invalidPosition
      ↔ (lines.length : Int) ≤ line)
    ∧ (TextBuffer.delete_text lines line (.int s) (.int e)
        = .error .invalidPosition ↔ (lines.length : Int) ≤ line)
    ∧ (TextBuffer.insert_text lines line column text = .error .indexError
      ↔ line < -(lines.length : Int))
    ∧ (TextBuffer.delete_text lines line (.int s) (.int e)
        = .error .indexError ↔ line < -(lines.length : Int)) := by
  refine ⟨?_, ?_, ?_, ?_⟩
  · unfold TextBuffer.insert_text listIndex
    split_ifs <;> simp <;> omega
  · unfold TextBuffer.delete_text listIndex pySliceTo pySliceFrom
    split_ifs <;> simp <;> omega
  · unfold TextBuffer.insert_text listIndex
    split_ifs <;> simp <;> omega
  · unfold TextBuffer.delete_text listIndex pySliceTo pySliceFrom
    split_ifs <;> simp <;> omega

/-- Claim C5, counterexample: on the buffer `["ab"]` with column 5 past
the end of the line, `insert_text(0, 5, "xy")` clamps and appends, giving
`"abxy"`, but `delete_text(0, 5, 7)` then clamps both slice bounds to the
line end and removes nothing, so the original line `"ab"` is not
restored. -/
theorem C5_counterexample :
    TextBuffer.insert_text [['a', 'b']] 0 5 ['x', 'y'] = .ok [['a', 'b', 'x', 'y']]
    ∧ TextBuffer.delete_text [['a', 'b', 'x', 'y']] 0 (.int 5) (.int 7)
        = .ok [['a', 'b', 'x', 'y']]
    ∧ ([['a', 'b', 'x', 'y']] : Lines) ≠ [['a', 'b']] :=
  ⟨rfl, rfl, by decide⟩

/-- Claim C5, amended: for a non-negative in-range line `l` and a column
`c` with `0 ≤ c ≤ len(line l)`, `insert_text(l, c, t)` followed by
`delete_text(l, c, c + len(t))` restores the original buffer; the inverse
law fails once `c` exceeds the line length (see the counterexample). -/
theorem C5_insert_delete_inverse (lines : Lines) (l c : Int) (text : PyStr)
    (lines' : Lines) (hl0 : 0 ≤ l) (hl : l < (lines.length : Int))
    (hc0 : 0 ≤ c) (hc : c.toNat ≤ (lines.getD l.toNat []).length)
    (hins : TextBuffer.insert_text lines l c text = .ok lines') :
    TextBuffer.delete_text lines' l (.int c) (.int (c + (text.length : Int)))
      = .ok lines := by
  have hiLen : l.toNat < lines.length := by omega
  have hlines' : lines' =
      lines.set l.toNat
        (pyTake (lines.getD l.toNat []) c ++ text ++
          pyDrop (lines.getD l.toNat []) c) := by
    have := (insert_text_eval lines l c text hl0 hl).symm.trans hins
    simpa using this.symm
  subst hlines'
  set cur := lines.getD l.toNat [] with hcur
  have htk : pyTake cur c = cur.take c.toNat := by
    unfold pyTake pyIndexNorm
    rw [if_neg (by omega)]
    congr 1
    omega
  have hdp : pyDrop cur c = cur.drop c.toNat := by
    unfold pyDrop pyIndexNorm
    rw [if_neg (by omega)]
    congr 1
    omega
  set new_line := pyTake cur c ++ text ++ pyDrop cur c with hnl
  have hnl' : new_line = cur.take c.toNat ++ (text ++ cur.drop c.toNat) := by
    rw [hnl, htk, hdp, List.append_assoc]
  have hlen' : l < ((lines.set l.toNat new_line).length : Int) := by
    rw [List.length_set]; exact hl
  rw [delete_text_eval _ l c (c + (text.length : Int)) hl0 hlen']
  rw [getD_set_self lines l.toNat new_line [] hiLen]
  have htake_len : (cur.take c.toNat).length = c.toNat := by
    rw [List.length_take]; omega
  have hnl_len : new_line.length = c.toNat + text.length + (cur.drop c.toNat).length := by
    rw [hnl']; simp [htake_len, Nat.add_assoc]
  have htk2 : pyTake new_line c = cur.take c.toNat := by
    unfold pyTake pyIndexNorm
    rw [if_neg (by omega)]
    have : min c.toNat new_line.length = c.toNat := by omega
    rw [this, hnl', List.take_left' htake_len]
  have hdp2 : pyDrop new_line (c + (text.length : Int)) = cur.drop c.toNat := by
    unfold pyDrop pyIndexNorm
    rw [if_neg (by omega)]
    have hmin : min (c + (text.length : Int)).toNat new_line.length
        = c.toNat + text.length := by omega
    rw [hmin, hnl', ← List.append_assoc]
    refine List.drop_left' ?_
    rw [List.length_append, htake_len]
  rw [htk2, hdp2, List.take_append_drop, List.set_set, hcur,
    set_getD_self lines l.toNat [] hiLen]

/-- Witness for `C5_insert_delete_inverse`: inserting `"xy"` at column 1
of `"ab"` and deleting columns `[1, 3)` restores `["ab"]`. -/
theorem C5_witness :
    TextBuffer.delete_text [['a', 'x', 'y', 'b']] 0 (.int 1) (.int 3)
      = .ok [['a', 'b']] :=
  C5_insert_delete_inverse [['a', 'b']] 0 1 ['x', 'y'] [['a', 'x', 'y', 'b']]
    (by decide) (by decide) (by decide) (by decide) rfl

end TextEditor

namespace TextEditor

/-- Claim C6: `set_text` followed by `get_text` returns the input exactly
for every string; `set_text ""` normalizes to a single empty line and
`get_text` then returns `""`. -/
theorem C6_set_get_roundtrip (text : PyStr) :
    TextBuffer.get_text (TextBuffer.set_text text) = text
    ∧ TextBuffer.set_text [] = [[]]
    ∧ TextBuffer.get_text (TextBuffer.set_text []) = [] := by
  refine ⟨?_, rfl, rfl⟩
  unfold TextBuffer.set_text TextBuffer.get_text
  split_ifs with h
  · subst h; rfl
  · exact List.intercalate_splitOn text '\n'

/-- Claim C7: the line list is never empty — the buffer is constructed
with one empty line, a successful `insert_text` or `delete_text` preserves
nonemptiness (both only `set` an existing index), and `set_text` always
produces at least one line, with exactly one empty line for empty input. -/
theorem C7_buffer_never_empty :
    0 < TextBuffer.init.length
    ∧ (∀ (lines : Lines) (line column : Int) (text : PyStr) (out : Lines),
        0 < lines.length →
        TextBuffer.insert_text lines line column text = .ok out →
        0 < out.length)
    ∧ (∀ (lines : Lines) (line : Int) (s e : PyVal) (out : Lines),
        0 < lines.length →
        TextBuffer.delete_text lines line s e = .ok out →
        0 < out.length)
    ∧ ∀ text : PyStr, 0 < (TextBuffer.set_text text).length := by
  refine ⟨by decide, ?_, ?_, ?_⟩
  · intro lines line column text out hpos hok
    unfold TextBuffer.insert_text at hok
    split at hok
    · exact absurd hok (by simp)
    · split at hok
      · exact absurd hok (by simp)
      · simp only [Except.ok.injEq] at hok
        rw [← hok]
        simpa using hpos
  · intro lines line s e out hpos hok
    unfold TextBuffer.delete_text at hok
    split at hok
    · exact absurd hok (by simp)
    · split at hok
      · exact absurd hok (by simp)
      · cases s <;> cases e <;> simp [pySliceTo, pySliceFrom] at hok
        subst hok
        simpa using hpos
  · intro text
    unfold TextBuffer.set_text
    split_ifs with h
    · simp
    · rw [List.length_pos]
      have := List.splitOnP_ne_nil (fun a => a == '\n') text
      simpa [List.splitOn] using this

/-- Witness for `C7_buffer_never_empty`: inserting into the fresh buffer
keeps it nonempty. -/
theorem C7_witness : 0 < ([['a']] : Lines).length :=
  C7_buffer_never_empty.2.1 [[]] 0 0 ['a'] [['a']] (by decide) rfl

/-- Claim C8: both loaders raise `DocumentNotFound` when the path does not
exist and it reaches the caller unwrapped, while a failing read/parse or a
failing `Document.from_xml` reconstruction is wrapped as `FileOperation`
(after a successful JSON parse, document construction is total and cannot
fail). -/
theorem C8_load_error_routing (fs : PyStr → Option PyStr)
    (json_load : PyStr → Except LibError JsonDict)
    (xml_parse : PyStr → Except LibError XmlDoc) (path : PyStr) :
    (fs path = none →
      load_from_json fs json_load path = .error .documentNotFound
      ∧ load_from_xml fs xml_parse path = .error .documentNotFound)
    ∧ (∀ content err, fs path = some content →
        json_load content = .error err →
        load_from_json fs json_load path = .error .fileOperation)
    ∧ (∀ content err, fs path = some content →
        xml_parse content = .error err →
        load_from_xml fs xml_parse path = .error .fileOperation)
    ∧ (∀ content x perr, fs path = some content →
        xml_parse content = .ok x → Document.from_xml x = .error perr →
        load_from_xml fs xml_parse path = .error .fileOperation) := by
  refine ⟨?_, ?_, ?_, ?_⟩
  · intro hnone
    constructor
    · unfold load_from_json load_from_json_body routeLoadErrors
      rw [hnone]
    · unfold load_from_xml load_from_xml_body routeLoadErrors
      rw [hnone]
  · intro content err hsome herr
    simp [load_from_json, load_from_json_body, routeLoadErrors, hsome, herr]
  · intro content err hsome herr
    simp [load_from_xml, load_from_xml_body, routeLoadErrors, hsome, herr]
  · intro content x perr hsome hx hdoc
    simp [load_from_xml, load_from_xml_body, routeLoadErrors, hsome, hx, hdoc]

/-- Witness for `C8_load_error_routing`: on an empty file system both
loaders report `DocumentNotFound`. -/
theorem C8_witness :
    load_from_json (fun _ => none) (fun _ => .error ⟨[]⟩) []
      = .error .documentNotFound
    ∧ load_from_xml (fun _ => none) (fun _ => .error ⟨[]⟩) []
      = .error .documentNotFound :=
  (C8_load_error_routing (fun _ => none) (fun _ => .error ⟨[]⟩)
    (fun _ => .error ⟨[]⟩) []).1 rfl

/-- Claim C9: `get_selected_text` returns the empty string when the
selection is inactive and the constant placeholder `"текст"` when it is
active, for every `lines` argument and all stored coordinates. -/
theorem C9_selected_text_constant (s : Selection) (lines : Lines) :
    (s.is_active = false → s.get_selected_text lines = [])
    ∧ (s.is_active = true → s.get_selected_text lines = Selection.placeholder) := by
  unfold Selection.get_selected_text
  constructor <;> intro h <;> simp [h]

/-- Witness for `C9_selected_text_constant`: a fresh selection is inactive
and yields `""`; after `set_start` it is active and yields the
placeholder. -/
theorem C9_witness :
    Selection.get_selected_text Selection.init [] = []
    ∧ Selection.get_selected_text (Selection.set_start Selection.init 0 0) []
        = Selection.placeholder :=
  ⟨(C9_selected_text_constant Selection.init []).1 rfl,
   (C9_selected_text_constant (Selection.set_start Selection.init 0 0) []).2 rfl⟩

/-- Claim C10: the `Cursor` constructor and `from_dict` validate nothing —
they succeed for every pair of integers, including negatives, and the
accessors return exactly the stored values; only `set_position` rejects a
negative component with `InvalidPosition`. -/
theorem C10_cursor_unvalidated (l c : Int) (cur : Cursor) :
    (Cursor.mk l c).get_line = l
    ∧ (Cursor.mk l c).get_column = c
    ∧ (Cursor.from_dict (some l) (some c)).get_line = l
    ∧ (Cursor.from_dict (some l) (some c)).get_column = c
    ∧ (cur.set_position l c = .error .invalidPosition ↔ l < 0 ∨ c < 0) := by
  refine ⟨rfl, rfl, rfl, rfl, ?_⟩
  unfold Cursor.set_position
  split_ifs with h <;> simp [h]

end TextEditor
